import Mathlib

/-!
Verification of the garage-door rotation/state core
(`rotation_handler.py`, `garage_door.py`, `main.py`).

Shallow embedding conventions:
  * MicroPython millisecond ticks are modelled as `Int` values; `ticks_diff`
    is the documented wrap-aware difference over a 2^30 tick period.
  * Python float accumulators only ever hold exact multiples of 0.125 / 0.5,
    so `rotation_count` is modelled as `ℚ`; `int(...)` (truncation toward
    zero) is `pyInt`.
  * Python truthiness of an optional tick value (`None` and `0` are falsy)
    is `truthy`.
  * A call that would raise a `TypeError` in the source (passing `None` to
    `ticks_diff`) is modelled as `Option`-valued, with `none` for the raise.
  * Relay actuation is modelled by counting pulses fired by a command.
-/

namespace Garage

/-- Movement classification, the values `STOPPED`/`CW`/`CCW` of
`rotation_handler.py`. -/
inductive Movement
  | stopped
  | cw
  | ccw
deriving DecidableEq, Repr

/-- MicroPython `time.ticks_diff` over the documented 2^30 tick period:
the signed wrap-aware difference in `[-2^29, 2^29)`. -/
def ticksDiff (a b : Int) : Int :=
  Int.emod (a - b + 2 ^ 29) (2 ^ 30) - 2 ^ 29

/-- Python truthiness of an optional tick value: `None` and `0` read false. -/
def truthy : Option Int → Bool
  | none => false
  | some t => t ≠ 0

/-- Python `int(q)` for our exact rational model of the float expressions:
truncation toward zero (`Int.tdiv` of numerator by denominator). -/
def pyInt (q : ℚ) : Int :=
  Int.tdiv q.num q.den

/-- Modelled from the spec's words "truncated toward zero": floor for
non-negative values, ceiling for negative ones.  Compared against `pyInt`,
the embedding of the source's `int(...)`. -/
def truncTowardZero (q : ℚ) : Int :=
  if 0 ≤ q then ⌊q⌋ else ⌈q⌉

namespace Quadrature

/-- The event code `_log_data` appends: the pin's value (0/1), plus 2 for
hall sensor 2 (`AOFF`=0, `AON`=1, `BOFF`=2, `BON`=3). -/
def pinCode (isHall1 value : Bool) : Nat :=
  (if value then 1 else 0) + (if isHall1 then 0 else 2)

/-- `TRANSITION_MAP` of `rotation_handler.py`: ordered (previous, current)
code pairs and the movement they imply; `none` for a pair not in the table. -/
def TRANSITION_MAP (prev cur : Nat) : Option Movement :=
  match prev, cur with
  | 3, 1 => some Movement.ccw
  | 3, 0 => some Movement.cw
  | 1, 2 => some Movement.ccw
  | 1, 3 => some Movement.cw
  | 2, 0 => some Movement.ccw
  | 2, 1 => some Movement.cw
  | 0, 3 => some Movement.ccw
  | 0, 2 => some Movement.cw
  | _, _ => none

/-- `Quadrature._log_data`: append the code and drop the oldest entry when
the history would reach length 3 (keeping the two most recent codes). -/
def logData (events : List Nat) (code : Nat) : List Nat :=
  let es := events ++ [code]
  if es.length = 3 then es.tail else es

/-- The last two entries of the history, `(events[-2], events[-1])`, when the
history has more than one entry. -/
def lastTwo (l : List Nat) : Option (Nat × Nat) :=
  match l.reverse with
  | b :: a :: _ => some (a, b)
  | _ => none

/-- The mutable state of a `Quadrature` instance. -/
structure State where
  full_motion_rotations : Int
  rotation_count : ℚ
  movement : Movement
  events : List Nat
  last_event_time : Int
deriving DecidableEq, Repr

/-- `Quadrature.callback`: log the event code, remember the event time, look
the last two codes up in the transition table (keeping the previous movement
on a miss), then unconditionally step the accumulator by ±1/8 according to
the (possibly updated) movement. -/
def callback (s : State) (isHall1 value : Bool) (now : Int) : State :=
  let events := logData s.events (pinCode isHall1 value)
  let movement :=
    match lastTwo events with
    | some (p, c) =>
      match TRANSITION_MAP p c with
      | some m => m
      | none => s.movement
    | none => s.movement
  { s with
    events := events
    movement := movement
    last_event_time := now
    rotation_count :=
      s.rotation_count + (if movement = Movement.cw then (1 : ℚ) / 8 else -((1 : ℚ) / 8)) }

/-- `Quadrature.is_moving`: the most recent edge is within 1000 ms of now. -/
def is_moving (s : State) (now : Int) : Bool :=
  decide (|ticksDiff now s.last_event_time| < 1000)

/-- `Quadrature.get_percent_done`: `int(rotation_count * 100 /
full_motion_rotations)`.  (The model assumes `full_motion_rotations ≠ 0`;
Python would raise `ZeroDivisionError` there.) -/
def get_percent_done (s : State) : Int :=
  pyInt (s.rotation_count * 100 / (s.full_motion_rotations : ℚ))

/-- `Quadrature.reset`: clear history, accumulator and last event time, set
movement to stopped. -/
def reset (s : State) : State :=
  { s with
    events := []
    rotation_count := 0
    last_event_time := 0
    movement := Movement.stopped }

end Quadrature

namespace RotationHandler

/-- `HallData`: per-sensor record of the current and previous edge
timestamps (`None` before any edge). -/
structure HallData where
  current : Option Int
  last : Option Int
deriving DecidableEq, Repr

/-- The mutable state of a `RotationHandler` instance. -/
structure State where
  full_motion_rotations : Int
  rotation_count : ℚ
  movement : Movement
  hall_1_data : HallData
  hall_2_data : HallData
deriving DecidableEq, Repr

/-- `RotationHandler._log_data`: shift current to last, record now. -/
def logData (d : HallData) (now : Int) : HallData :=
  { current := some now, last := d.current }

/-- `RotationHandler._set_movement` acting on (movement, rotation_count):
when the firing sensor's previous timestamp, its current timestamp and the
other sensor's current timestamp are all truthy, classify by comparing the
elapsed time since the other sensor's edge with half the elapsed time since
the firing sensor's previous edge, and step the accumulator by ±1/2
according to the new movement; otherwise leave both unchanged. -/
def setMovement (now : Int) (first second : HallData) (fm sm : Movement)
    (movement : Movement) (rc : ℚ) : Movement × ℚ :=
  if truthy first.last && truthy first.current && truthy second.current then
    let m :=
      if ((ticksDiff now (second.current.getD 0) : ℚ) <
          (ticksDiff now (first.last.getD 0) : ℚ) / 2)
      then fm else sm
    (m, rc + (if m = Movement.cw then (1 : ℚ) / 2 else -((1 : ℚ) / 2)))
  else
    (movement, rc)

/-- `RotationHandler.callback`: log the firing sensor's edge and classify;
hall 1's own direction label is counter-clockwise, hall 2's is clockwise. -/
def callback (s : State) (isHall1 : Bool) (now : Int) : State :=
  if isHall1 then
    let h1 := logData s.hall_1_data now
    let mr := setMovement now h1 s.hall_2_data Movement.ccw Movement.cw
      s.movement s.rotation_count
    { s with hall_1_data := h1, movement := mr.1, rotation_count := mr.2 }
  else
    let h2 := logData s.hall_2_data now
    let mr := setMovement now h2 s.hall_1_data Movement.cw Movement.ccw
      s.movement s.rotation_count
    { s with hall_2_data := h2, movement := mr.1, rotation_count := mr.2 }

/-- `RotationHandler.is_moving`: `abs(ticks_diff(ticks_ms(), hall_1_data.current)) < 1000`.
When `hall_1_data.current` is `None` the source raises `TypeError`
(`ticks_diff` cannot take `None`); that raise is modelled as `none`. -/
def is_moving (s : State) (now : Int) : Option Bool :=
  match s.hall_1_data.current with
  | none => none
  | some c => some (decide (|ticksDiff now c| < 1000))

/-- `RotationHandler.get_percent_done`, identical to the quadrature one. -/
def get_percent_done (s : State) : Int :=
  pyInt (s.rotation_count * 100 / (s.full_motion_rotations : ℚ))

/-- `RotationHandler.reset`: clear both sensors' data, zero the accumulator,
set movement to stopped. -/
def reset (s : State) : State :=
  { s with
    hall_1_data := { current := none, last := none }
    hall_2_data := { current := none, last := none }
    rotation_count := 0
    movement := Movement.stopped }

end RotationHandler

/-- The change-detection cache of a `GarageDoor` (`last_state`,
`last_percent_open` of `garage_door.py`). -/
structure DoorCache where
  last_state : Option String
  last_percent_open : Option Int
deriving DecidableEq, Repr

/-- `open_direction`: `CW if open_is_cw else CCW`. -/
def openDirection (open_is_cw : Bool) : Movement :=
  if open_is_cw then Movement.cw else Movement.ccw

/-- `close_direction`: `CCW if open_is_cw else CW`. -/
def closeDirection (open_is_cw : Bool) : Movement :=
  if open_is_cw then Movement.ccw else Movement.cw

/-- What one `update()` call observes: the two limit-switch readings
(`is_fully_closed`/`is_fully_opened`, i.e. pin value 0), the encoder's
`is_moving()` result, its current movement and its `get_percent_done()`. -/
structure Obs where
  fully_closed : Bool
  fully_opened : Bool
  moving : Bool
  movement : Movement
  percent_done : Int
deriving DecidableEq, Repr

/-- The classification chain of `GarageDoor.update` (lines 63–80): the
computed `current_state`, `current_percent_open`, and whether the encoder is
reset by this call. -/
def classify (open_is_cw : Bool) (o : Obs) : Option String × Option Int × Bool :=
  if o.fully_closed then
    (some "closed", some 0, true)
  else if o.fully_opened then
    (some "open", some 100, true)
  else if !o.moving then
    (some "stopped", none, false)
  else if o.movement = openDirection open_is_cw ∨ o.movement = closeDirection open_is_cw then
    let state := if o.movement = openDirection open_is_cw then "opening" else "closing"
    let rd := o.percent_done
    (some state, some (if rd < 0 then |rd| else 100 - rd), false)
  else
    (none, none, false)

/-- The change-suppression tail of `GarageDoor.update` (lines 82–90): update
the cached last values and null out unchanged fields of the return value. -/
def applyChanges (c : DoorCache) (cs : Option String) (cp : Option Int) :
    DoorCache × Option String × Option Int :=
  let s := if cs ≠ c.last_state then (cs, cs) else (c.last_state, (none : Option String))
  let p := if cp ≠ c.last_percent_open then (cp, cp) else (c.last_percent_open, (none : Option Int))
  (⟨s.1, p.1⟩, s.2, p.2)

/-- One `update()` call as a function of what it observes: classification
followed by change suppression. -/
def updateObs (open_is_cw : Bool) (o : Obs) (c : DoorCache) :
    DoorCache × Option String × Option Int :=
  let r := classify open_is_cw o
  applyChanges c r.1 r.2.1

/-- A `GarageDoor` built with `quadrature=True`: the change-detection cache,
the pending command and the owned `Quadrature` encoder. -/
structure GarageDoorQ where
  open_is_cw : Bool
  cache : DoorCache
  last_command : Option String
  rot : Quadrature.State
deriving DecidableEq, Repr

/-- `GarageDoor.update` for the quadrature-encoder door: observe the limit
switches and the encoder, classify, reset the encoder on a limit hit, then
suppress unchanged fields.  Returns the new door and the
`(current_state, current_percent_open)` pair the source returns. -/
def GarageDoorQ.update (d : GarageDoorQ) (fully_closed fully_opened : Bool) (now : Int) :
    GarageDoorQ × Option String × Option Int :=
  let o : Obs :=
    { fully_closed := fully_closed
      fully_opened := fully_opened
      moving := Quadrature.is_moving d.rot now
      movement := d.rot.movement
      percent_done := Quadrature.get_percent_done d.rot }
  let r := classify d.open_is_cw o
  let rot' := if r.2.2 then Quadrature.reset d.rot else d.rot
  let a := applyChanges d.cache r.1 r.2.1
  ({ d with cache := a.1, rot := rot' }, a.2)

/-- A `GarageDoor` built with `quadrature=False` (the timing-inferred
`RotationHandler` encoder). -/
structure GarageDoorR where
  open_is_cw : Bool
  cache : DoorCache
  last_command : Option String
  rot : RotationHandler.State
deriving DecidableEq, Repr

/-- `GarageDoor.update` for the timing-inferred door, mirroring the source's
`if/elif` chain: the limit branches never consult the encoder's
`is_moving()`, but mid-travel `update()` calls `is_stopped()` →
`is_moving()`, which raises `TypeError` when `hall_1_data.current` is `None`
(modelled as `none`). -/
def GarageDoorR.update (d : GarageDoorR) (fully_closed fully_opened : Bool) (now : Int) :
    Option (GarageDoorR × Option String × Option Int) :=
  if fully_closed then
    let a := applyChanges d.cache (some "closed") (some 0)
    some ({ d with cache := a.1, rot := RotationHandler.reset d.rot }, a.2)
  else if fully_opened then
    let a := applyChanges d.cache (some "open") (some 100)
    some ({ d with cache := a.1, rot := RotationHandler.reset d.rot }, a.2)
  else
    match RotationHandler.is_moving d.rot now with
    | none => none
    | some mv =>
      let o : Obs :=
        { fully_closed := false
          fully_opened := false
          moving := mv
          movement := d.rot.movement
          percent_done := RotationHandler.get_percent_done d.rot }
      let r := classify d.open_is_cw o
      let a := applyChanges d.cache r.1 r.2.1
      some ({ d with cache := a.1 }, a.2)

namespace Command

/-- `GarageDoor.open`: no-op when fully open, otherwise record
`last_command = "open"` and fire one relay pulse.  Returns the new
`last_command` and the number of relay pulses fired. -/
def open_cmd (fully_opened : Bool) (last_command : Option String) : Option String × Nat :=
  if !fully_opened then (some "open", 1) else (last_command, 0)

/-- `GarageDoor.close`: symmetric, guarded by fully-closed. -/
def close_cmd (fully_closed : Bool) (last_command : Option String) : Option String × Nat :=
  if !fully_closed then (some "close", 1) else (last_command, 0)

/-- `GarageDoor.stop`: no pulse when the door is at either limit, otherwise
one relay pulse (and no `last_command` change).  Returns the pulse count. -/
def stop_cmd (fully_closed fully_opened : Bool) : Nat :=
  if fully_closed || fully_opened then 0 else 1

/-- `process_command` of `main.py` for one door: gate the requested action
against `last_state` and the limit switches, then run the door method.
Returns the door's new `last_command` and the number of relay pulses. -/
def process_command (action : String) (last_state : Option String)
    (fully_opened fully_closed : Bool) (last_command : Option String) :
    Option String × Nat :=
  if action = "open" ∧ ¬ last_state = some "opening" ∧ ¬ fully_opened = true then
    open_cmd fully_opened last_command
  else if action = "close" ∧ ¬ last_state = some "closing" ∧ ¬ fully_closed = true then
    close_cmd fully_closed last_command
  else if action = "stop" ∧ (last_state = some "closing" ∨ last_state = some "opening") then
    (last_command, stop_cmd fully_closed fully_opened)
  else
    (last_command, 0)

end Command

/-! ## Shared lemmas -/

/-- Python's `int()` on our exact rational model agrees with the spec's
"truncated toward zero": floor for non-negative values, ceiling for
negative ones. -/
theorem pyInt_eq_truncTowardZero (q : ℚ) : pyInt q = truncTowardZero q := by
  unfold pyInt truncTowardZero
  rcases le_or_lt 0 q with h | h
  · rw [if_pos h, Rat.floor_def]
    exact Int.tdiv_eq_ediv (Rat.num_nonneg.mpr h) (Int.natCast_nonneg _)
  · rw [if_neg (not_le.mpr h)]
    have h2 : 0 ≤ (-q).num := Rat.num_nonneg.mpr (by linarith)
    have hside : Int.tdiv q.num q.den = -Int.tdiv (-q).num (-q).den := by
      rw [Rat.num_neg_eq_neg_num, Rat.den_neg_eq_den, Int.neg_tdiv, neg_neg]
    rw [hside, Int.tdiv_eq_ediv h2 (Int.natCast_nonneg _), ← Rat.floor_def,
      ← Int.ceil_neg, neg_neg]

/-- Truncation toward zero does not increase absolute value past an integer
bound on the argument. -/
theorem truncTowardZero_abs_le (q : ℚ) (n : Int) (h : |q| ≤ (n : ℚ)) :
    |truncTowardZero q| ≤ n := by
  unfold truncTowardZero
  rcases abs_le.mp h with ⟨hl, hr⟩
  rcases le_or_lt 0 q with h0 | h0
  · rw [if_pos h0, abs_of_nonneg (Int.floor_nonneg.mpr h0)]
    have hf : ⌊q⌋ ≤ ⌊(n : ℚ)⌋ := Int.floor_le_floor hr
    simpa using hf
  · rw [if_neg (not_le.mpr h0),
      abs_of_nonpos (Int.ceil_le.mpr (by exact_mod_cast h0.le))]
    have hc : ⌈(-(n : ℚ))⌉ ≤ ⌈q⌉ := Int.ceil_le_ceil hl
    have hcn : ⌈(-(n : ℚ))⌉ = -n := by
      rw [show (-(n : ℚ)) = ((-n : ℤ) : ℚ) by push_cast; ring, Int.ceil_intCast]
    omega

/-- `get_percent_done` stays within ±100 while the accumulator's magnitude
is at most the configured full-travel rotation count. -/
theorem quadrature_percent_done_abs_le (s : Quadrature.State)
    (hf : 0 < s.full_motion_rotations)
    (ha : |s.rotation_count| ≤ (s.full_motion_rotations : ℚ)) :
    |Quadrature.get_percent_done s| ≤ 100 := by
  unfold Quadrature.get_percent_done
  rw [pyInt_eq_truncTowardZero]
  apply truncTowardZero_abs_le
  have hfq : (0 : ℚ) < (s.full_motion_rotations : ℚ) := by exact_mod_cast hf
  rw [abs_div, abs_mul, abs_of_pos hfq, div_le_iff₀ hfq, show |(100 : ℚ)| = 100 by norm_num]
  push_cast
  nlinarith [ha, hfq]

/-- After one `update()` pass, the cached last values are exactly the
classification this pass computed. -/
theorem applyChanges_cache (c : DoorCache) (cs : Option String) (cp : Option Int) :
    (applyChanges c cs cp).1 = ⟨cs, cp⟩ := by
  unfold applyChanges
  by_cases h1 : cs = c.last_state <;> by_cases h2 : cp = c.last_percent_open <;>
    simp [h1, h2]

/-- A non-null percent value returned by the suppression tail is the percent
the classification computed. -/
theorem applyChanges_out_percent (c : DoorCache) (cs : Option String) (cp : Option Int)
    (p : Int) (h : (applyChanges c cs cp).2.2 = some p) : cp = some p := by
  unfold applyChanges at h
  by_cases h2 : cp = c.last_percent_open
  · simp [h2] at h
  · simpa [h2] using h

/-- When the classification computes no percent, the suppression tail also
returns no percent. -/
theorem applyChanges_out_percent_of_none (c : DoorCache) (cs : Option String) :
    (applyChanges c cs none).2.2 = none := by
  by_cases h : (none : Option Int) ≠ c.last_percent_open <;> simp [applyChanges, h]

/-- Truncation toward zero of an integer is that integer. -/
theorem truncTowardZero_intCast (n : Int) : truncTowardZero ((n : Int) : ℚ) = n := by
  unfold truncTowardZero
  split_ifs <;> simp

/-- Concrete evaluation of `get_percent_done` through the exact rational
value of `rotation_count * 100 / full_motion_rotations`. -/
theorem get_percent_done_eval (s : Quadrature.State) (n : Int)
    (h : s.rotation_count * 100 / (s.full_motion_rotations : ℚ) = (n : ℚ)) :
    Quadrature.get_percent_done s = n := by
  unfold Quadrature.get_percent_done
  rw [pyInt_eq_truncTowardZero, h, truncTowardZero_intCast]

/-! ## Claim theorems -/

/-- C1 (counterexample): with movement `stopped`, history `[AON]` and
accumulator 0, an `AON` edge forms the pair `(AON, AON)`, which is not in
the transition table; the movement is indeed unchanged, but the accumulator
changes (it becomes −1/8), so the claim's "the accumulator is unchanged by
that edge event" is false. -/
theorem quadrature_invalid_pair_changes_accumulator :
    (Quadrature.callback ⟨1, 0, Movement.stopped, [1], 0⟩ true true 5).movement
        = Movement.stopped ∧
    ¬ (Quadrature.callback ⟨1, 0, Movement.stopped, [1], 0⟩ true true 5).rotation_count
        = (0 : ℚ) := by
  constructor
  · rfl
  · show ¬ (0 : ℚ) + -((1 : ℚ) / 8) = 0
    norm_num

/-- C1 (amended): for every edge whose (previous-code, current-code) pair is
not in the fixed transition table, the movement classification is unchanged,
and the rotation accumulator still changes by ±1/8 according to that
retained movement (+1/8 iff it is clockwise). -/
theorem quadrature_invalid_pair (s : Quadrature.State) (h1 v : Bool) (now : Int)
    (p c : Nat)
    (hl : Quadrature.lastTwo (Quadrature.logData s.events (Quadrature.pinCode h1 v)) = some (p, c))
    (hn : Quadrature.TRANSITION_MAP p c = none) :
    (Quadrature.callback s h1 v now).movement = s.movement ∧
    (Quadrature.callback s h1 v now).rotation_count =
      s.rotation_count + (if s.movement = Movement.cw then (1 : ℚ) / 8 else -((1 : ℚ) / 8)) := by
  simp only [Quadrature.callback, hl, hn]
  exact ⟨trivial, trivial⟩

/-- C1 (witness for the amended theorem): the invalid pair `(AON, AON)`
arriving while the movement is counter-clockwise keeps the movement and
steps the accumulator by −1/8. -/
theorem quadrature_invalid_pair_witness :
    (Quadrature.callback ⟨1, 0, Movement.ccw, [1], 0⟩ true true 5).movement = Movement.ccw ∧
    (Quadrature.callback ⟨1, 0, Movement.ccw, [1], 0⟩ true true 5).rotation_count =
      (0 : ℚ) + (if Movement.ccw = Movement.cw then (1 : ℚ) / 8 else -((1 : ℚ) / 8)) :=
  quadrature_invalid_pair ⟨1, 0, Movement.ccw, [1], 0⟩ true true 5 1 1 rfl rfl

/-- C10: every `Quadrature` edge event steps the rotation accumulator by
exactly ±1/8 unconditionally — +1/8 when the movement classification after
the edge is clockwise and −1/8 otherwise — and in particular the first edge
after a reset (one code in the history, movement `stopped`) leaves the
movement `stopped` and decreases the accumulator by 1/8. -/
theorem quadrature_unconditional_step (s : Quadrature.State) (h1 v : Bool) (now : Int) :
    ((Quadrature.callback s h1 v now).rotation_count =
      s.rotation_count +
        (if (Quadrature.callback s h1 v now).movement = Movement.cw
         then (1 : ℚ) / 8 else -((1 : ℚ) / 8))) ∧
    ∀ (s2 : Quadrature.State) (h2 v2 : Bool) (n2 : Int),
      (Quadrature.callback (Quadrature.reset s2) h2 v2 n2).movement = Movement.stopped ∧
      (Quadrature.callback (Quadrature.reset s2) h2 v2 n2).rotation_count = -((1 : ℚ) / 8) := by
  constructor
  · rfl
  · intro s2 h2 v2 n2
    constructor
    · rfl
    · show (0 : ℚ) + -((1 : ℚ) / 8) = -((1 : ℚ) / 8)
      norm_num

/-- C6: two consecutive `update()` passes that observe the same limit-switch
readings and the same encoder movement/accumulator snapshot return "no
update" (`none`) for both the state and the percent on the second pass. -/
theorem update_change_suppression (open_is_cw : Bool) (o : Obs) (c : DoorCache) :
    (updateObs open_is_cw o (updateObs open_is_cw o c).1).2 = (none, none) := by
  simp only [updateObs]
  rw [applyChanges_cache]
  simp [applyChanges]

/-- C7: when both limit inputs read active, the computed state is "closed"
with percent 0 and the encoder is reset; and with the closed-limit active
the computed state is never "open". -/
theorem closed_limit_priority (open_is_cw mv : Bool) (m : Movement) (pd : Int)
    (d : GarageDoorQ) (now : Int) :
    classify open_is_cw ⟨true, true, mv, m, pd⟩ = (some "closed", some 0, true) ∧
    (∀ o : Obs, o.fully_closed = true → ¬ (classify open_is_cw o).1 = some "open") ∧
    (GarageDoorQ.update d true true now).1.rot = Quadrature.reset d.rot := by
  refine ⟨by simp [classify], ?_, ?_⟩
  · intro o ho
    simp [classify, ho]
  · simp [GarageDoorQ.update, classify]

/-- C7 (witness): with the closed-limit active and the open-limit also
active, the classification is not "open". -/
theorem closed_limit_priority_witness :
    ¬ (classify true ⟨true, true, false, Movement.stopped, 0⟩).1 = some "open" :=
  (closed_limit_priority true false Movement.stopped 0
      ⟨true, ⟨none, none⟩, none, ⟨1, 0, Movement.stopped, [], 0⟩⟩ 0).2.1
    ⟨true, true, false, Movement.stopped, 0⟩ rfl

/-- C9: `open()` is a no-op at the fully-open limit and otherwise records
`last_command = "open"` with exactly one relay pulse; `close()` is symmetric
under fully-closed; `stop()` fires no pulse when either limit is active; and
a "stop" command delivered while the door's last reported state is neither
"opening" nor "closing" fires no pulse. -/
theorem command_guards :
    (∀ lc : Option String, Command.open_cmd true lc = (lc, 0)) ∧
    (∀ lc : Option String, Command.open_cmd false lc = (some "open", 1)) ∧
    (∀ lc : Option String, Command.close_cmd true lc = (lc, 0)) ∧
    (∀ lc : Option String, Command.close_cmd false lc = (some "close", 1)) ∧
    (∀ fc fo : Bool, fc = true ∨ fo = true → Command.stop_cmd fc fo = 0) ∧
    (∀ (ls : Option String) (fo fc : Bool) (lc : Option String),
      ¬ (ls = some "closing" ∨ ls = some "opening") →
      (Command.process_command "stop" ls fo fc lc).2 = 0) := by
  refine ⟨fun lc => rfl, fun lc => rfl, fun lc => rfl, fun lc => rfl, ?_, ?_⟩
  · intro fc fo h
    rcases h with h | h
    · simp [Command.stop_cmd, h]
    · simp [Command.stop_cmd, h]
  · intro ls fo fc lc h
    simp only [Command.process_command]
    rw [if_neg (by simp), if_neg (by simp), if_neg (by simp [h])]

/-- C9 (witness): "stop" with the last reported state "stopped" fires no
relay pulse. -/
theorem command_guards_witness :
    (Command.process_command "stop" (some "stopped") false false none).2 = 0 :=
  command_guards.2.2.2.2.2 (some "stopped") false false none (by simp)

/-- C5: when a sensor fires and the firing sensor's previous timestamp, the
current time, and the other sensor's most recent timestamp are all recorded
(non-`None` and non-zero, the source's truthiness test), the movement is set
to the firing sensor's fixed label (hall 1 → counter-clockwise, hall 2 →
clockwise) exactly when the elapsed time since the other sensor's edge is
less than half the elapsed time since the firing sensor's own previous edge,
and to the opposite label otherwise; and the first two edges after a
`reset()` leave the movement `stopped` and the accumulator 0. -/
theorem timing_direction_inference (s : RotationHandler.State) (h1 : Bool) (now t u : Int)
    (hf : (if h1 then s.hall_1_data else s.hall_2_data).current = some t)
    (ht : ¬ t = 0) (hn : ¬ now = 0)
    (ho : (if h1 then s.hall_2_data else s.hall_1_data).current = some u)
    (hu : ¬ u = 0) :
    ((RotationHandler.callback s h1 now).movement =
      if ((ticksDiff now u : Int) : ℚ) < ((ticksDiff now t : Int) : ℚ) / 2
      then (if h1 then Movement.ccw else Movement.cw)
      else (if h1 then Movement.cw else Movement.ccw)) ∧
    ∀ (s2 : RotationHandler.State) (p1 : Bool) (n1 : Int) (p2 : Bool) (n2 : Int),
      (RotationHandler.callback (RotationHandler.reset s2) p1 n1).movement
          = Movement.stopped ∧
      (RotationHandler.callback (RotationHandler.reset s2) p1 n1).rotation_count = 0 ∧
      (RotationHandler.callback
          (RotationHandler.callback (RotationHandler.reset s2) p1 n1) p2 n2).movement
          = Movement.stopped ∧
      (RotationHandler.callback
          (RotationHandler.callback (RotationHandler.reset s2) p1 n1) p2 n2).rotation_count
          = 0 := by
  constructor
  · cases h1 with
    | true =>
      simp only [if_pos trivial] at hf ho ⊢
      simp [RotationHandler.callback, RotationHandler.logData, RotationHandler.setMovement,
        truthy, hf, ho, ht, hn, hu]
    | false =>
      simp at hf ho
      simp [RotationHandler.callback, RotationHandler.logData, RotationHandler.setMovement,
        truthy, hf, ho, ht, hn, hu]
  · intro s2 p1 n1 p2 n2
    cases p1 <;> cases p2 <;>
      simp [RotationHandler.callback, RotationHandler.logData, RotationHandler.setMovement,
        RotationHandler.reset, truthy]

/-- C5 (witness): hall 1 fires at t=200 with its previous edge at t=100 and
hall 2's latest edge at t=150; 50 is not less than 100/2, so the movement
resolves to hall 1's opposite label, clockwise. -/
theorem timing_direction_inference_witness :
    (RotationHandler.callback
        ⟨1, 0, Movement.stopped, ⟨some 100, none⟩, ⟨some 150, none⟩⟩ true 200).movement =
      if ((ticksDiff 200 150 : Int) : ℚ) < ((ticksDiff 200 100 : Int) : ℚ) / 2
      then Movement.ccw else Movement.cw :=
  (timing_direction_inference
      ⟨1, 0, Movement.stopped, ⟨some 100, none⟩, ⟨some 150, none⟩⟩ true 200 100 150
      rfl (by decide) (by decide) rfl (by decide)).1

/-- C2: evidence for the crash.  Immediately after `RotationHandler.reset()`
(`hall_1_data.current = None`), `is_moving()` hits
`ticks_diff(ticks_ms(), None)` and raises `TypeError` (modelled `none`), and
a mid-travel `GarageDoor.update()` (neither limit active) propagates it
instead of returning a state/percent pair. -/
theorem update_raises_after_reset :
    RotationHandler.is_moving
      (RotationHandler.reset ⟨1, 0, Movement.stopped, ⟨none, none⟩, ⟨none, none⟩⟩) 5 = none ∧
    GarageDoorR.update
      ⟨true, ⟨none, none⟩, none,
        RotationHandler.reset ⟨1, 0, Movement.stopped, ⟨none, none⟩, ⟨none, none⟩⟩⟩
      false false 5 = none := by
  exact ⟨rfl, rfl⟩

/-- C3 (counterexample): with accumulator −2 and full-travel count 1 (the
magnitude exceeds the configured full travel), a mid-travel moving
`update()` returns the percent 200, which is outside [0,100]. -/
theorem update_percent_out_of_range :
    (GarageDoorQ.update ⟨true, ⟨none, none⟩, none, ⟨1, -2, Movement.cw, [], 0⟩⟩
        false false 100).2.2 = some 200 ∧
    ¬ ((200 : Int) ≤ 100) := by
  have hpd : Quadrature.get_percent_done ⟨1, -2, Movement.cw, [], 0⟩ = -200 :=
    get_percent_done_eval _ _ (by norm_num)
  constructor
  · simp only [GarageDoorQ.update, hpd]
    decide
  · norm_num

/-- C3 (amended): every non-null percent returned by `update()` is an
integer in [0,100] provided the accumulator's magnitude is at most the
configured `full_motion_rotations`; accumulator magnitudes exceeding the
full-travel count can produce values outside that range. -/
theorem update_percent_in_range (d : GarageDoorQ) (fc fo : Bool) (now : Int)
    (hf : 0 < d.rot.full_motion_rotations)
    (ha : |d.rot.rotation_count| ≤ (d.rot.full_motion_rotations : ℚ)) :
    ∀ p : Int, (GarageDoorQ.update d fc fo now).2.2 = some p → 0 ≤ p ∧ p ≤ 100 := by
  intro p hp
  simp only [GarageDoorQ.update] at hp
  have hcp := applyChanges_out_percent _ _ _ _ hp
  have hb := quadrature_percent_done_abs_le d.rot hf ha
  simp only [classify] at hcp
  rcases abs_le.mp hb with ⟨hbl, hbr⟩
  split_ifs at hcp
  all_goals cases hcp
  all_goals
    first
      | exact ⟨abs_nonneg _, hb⟩
      | constructor <;> omega

/-- C3 (witness for the amended theorem): a door opening with accumulator
1/2 of a full travel of 1 reports percent 50, inside [0,100]. -/
theorem update_percent_in_range_witness : 0 ≤ (50 : Int) ∧ (50 : Int) ≤ 100 :=
  update_percent_in_range ⟨true, ⟨none, none⟩, none, ⟨1, 1 / 2, Movement.cw, [], 0⟩⟩
    false false 100 (by decide) (by rw [abs_le]; constructor <;> norm_num) 50
    (by
      have hpd : Quadrature.get_percent_done ⟨1, 1 / 2, Movement.cw, [], 0⟩ = 50 :=
        get_percent_done_eval _ _ (by norm_num)
      simp only [GarageDoorQ.update, hpd]
      decide)

/-- C4 (counterexample): with neither limit active, the encoder stale (not
moving) and the cached last percent 42, `update()` does not keep the cached
`last_percent_open`: it overwrites it with `None`. -/
theorem stopped_clears_cached_percent :
    ¬ ((GarageDoorQ.update ⟨true, ⟨some "stopped", some 42⟩, none,
          ⟨1, 0, Movement.stopped, [], 0⟩⟩ false false 2000).1.cache.last_percent_open
        = some 42) ∧
    (GarageDoorQ.update ⟨true, ⟨some "stopped", some 42⟩, none,
        ⟨1, 0, Movement.stopped, [], 0⟩⟩ false false 2000).1.cache.last_percent_open
      = none := by
  constructor <;> decide

/-- C4 (amended): when neither limit switch is active and the encoder
reports not-moving, `update()` classifies the state as "stopped" and emits
no percent update; however the cached `last_percent_open` does not keep its
previous value — it is overwritten with null. -/
theorem stopped_branch_effects (d : GarageDoorQ) (now : Int)
    (hnm : Quadrature.is_moving d.rot now = false) :
    (GarageDoorQ.update d false false now).1.cache.last_state = some "stopped" ∧
    (GarageDoorQ.update d false false now).2.2 = none ∧
    (GarageDoorQ.update d false false now).1.cache.last_percent_open = none := by
  have h1 : (GarageDoorQ.update d false false now).1.cache = ⟨some "stopped", none⟩ := by
    simp [GarageDoorQ.update, classify, hnm, applyChanges_cache]
  refine ⟨by rw [h1], ?_, by rw [h1]⟩
  simp [GarageDoorQ.update, classify, hnm, applyChanges_out_percent_of_none]

/-- C4 (witness for the amended theorem): a stale encoder with cached
percent 7 yields the "stopped" classification, no percent output and a
cleared cache. -/
theorem stopped_branch_effects_witness :
    (GarageDoorQ.update ⟨true, ⟨none, some 7⟩, none, ⟨1, 0, Movement.stopped, [], 0⟩⟩
        false false 5000).1.cache.last_state = some "stopped" ∧
    (GarageDoorQ.update ⟨true, ⟨none, some 7⟩, none, ⟨1, 0, Movement.stopped, [], 0⟩⟩
        false false 5000).2.2 = none ∧
    (GarageDoorQ.update ⟨true, ⟨none, some 7⟩, none, ⟨1, 0, Movement.stopped, [], 0⟩⟩
        false false 5000).1.cache.last_percent_open = none :=
  stopped_branch_effects ⟨true, ⟨none, some 7⟩, none, ⟨1, 0, Movement.stopped, [], 0⟩⟩
    5000 (by decide)

/-- C8 (counterexample): with accumulator 5/8 and full-travel count 3 the
exact value is 125/6 ≈ 20.83; `get_percent_done` truncates to 20 while the
nearest-integer rounding gives 21, so the two do not agree. -/
theorem percent_rounding_disagrees :
    Quadrature.get_percent_done ⟨3, 5 / 8, Movement.stopped, [], 0⟩ = 20 ∧
    round ((5 / 8 : ℚ) * 100 / ((3 : Int) : ℚ)) = 21 ∧
    ¬ ((20 : Int) = 21) := by
  refine ⟨?_, ?_, by decide⟩
  · show pyInt ((5 / 8 : ℚ) * 100 / ((3 : Int) : ℚ)) = 20
    rw [pyInt_eq_truncTowardZero]
    unfold truncTowardZero
    rw [if_pos (by norm_num)]
    norm_num
  · norm_num [round_eq]

/-- C8 (amended): for both encoder variants and positive
`full_motion_rotations`, `get_percent_done` returns
`rotation_count * 100 / full_motion_rotations` truncated toward zero (floor
of a non-negative value, ceiling of a negative one); the nearest-integer
rounding does not always agree with that result. -/
theorem percent_done_is_truncation (s : Quadrature.State) (r : RotationHandler.State)
    (hs : 0 < s.full_motion_rotations) (hr : 0 < r.full_motion_rotations) :
    Quadrature.get_percent_done s =
      truncTowardZero (s.rotation_count * 100 / (s.full_motion_rotations : ℚ)) ∧
    RotationHandler.get_percent_done r =
      truncTowardZero (r.rotation_count * 100 / (r.full_motion_rotations : ℚ)) :=
  ⟨pyInt_eq_truncTowardZero _, pyInt_eq_truncTowardZero _⟩

/-- C8 (witness for the amended theorem): both variants at accumulator 0 and
full travel 1. -/
theorem percent_done_is_truncation_witness :
    Quadrature.get_percent_done ⟨1, 0, Movement.stopped, [], 0⟩ =
      truncTowardZero ((0 : ℚ) * 100 / ((1 : Int) : ℚ)) ∧
    RotationHandler.get_percent_done ⟨1, 0, Movement.stopped, ⟨none, none⟩, ⟨none, none⟩⟩ =
      truncTowardZero ((0 : ℚ) * 100 / ((1 : Int) : ℚ)) :=
  percent_done_is_truncation ⟨1, 0, Movement.stopped, [], 0⟩
    ⟨1, 0, Movement.stopped, ⟨none, none⟩, ⟨none, none⟩⟩ (by decide) (by decide)

end Garage
